import Mathlib

/-!
Verification of `steps/03_harmonize_data.py`, the data-harmonization step of the
marketplace analytics pipeline.  The script declares one vectorized Python UDF
(`get_city_for_airport`) and a list of seven views (`pipeline`), then issues
create-or-replace calls for the UDF and for each view of the list against the
schema `silver` of the database `quickstart_{environment}`.  An eighth view
(`attractions`) is constructed after the creation loop and never passed to a
create call.

The embedding below transliterates the script's data (UDF record, view records,
query texts) and models the script's run as a sequence of create calls applied
to an explicit warehouse-schema state.  The semantics of the UDF body and of the
`flight_emissions` query's WHERE clause are modelled where claims need them.
In the string literals of this file, the byte escapes `\x27`, `\x7b` and `\x7d`
denote the single-quote and brace characters of the original source text.
-/

namespace Harmonize

/-- Create modes of the `snowflake.core` API; the script only ever uses
`CreateMode.or_replace` (spelled `orReplace` here). -/
inductive CreateMode where
  | orReplace
  | errorIfExists
  | ifNotExists
deriving DecidableEq

/-- A view column, as in `snowflake.core.view.ViewColumn(name=...)`. -/
structure ViewColumn where
  name : String
deriving DecidableEq

/-- A view record, as in `snowflake.core.view.View(name=..., columns=..., query=...)`. -/
structure View where
  name : String
  columns : List ViewColumn
  query : String
deriving DecidableEq

/-- A UDF argument, as in `Argument(name=..., datatype=...)`. -/
structure Argument where
  name : String
  datatype : String
deriving DecidableEq

/-- A UDF return type, as in `ReturnDataType(datatype=...)`. -/
structure ReturnDataType where
  datatype : String
deriving DecidableEq

/-- The Python language configuration of a UDF, as in
`PythonFunction(runtime_version=..., packages=..., handler=...)`. -/
structure PythonFunction where
  runtime_version : String
  packages : List String
  handler : String
deriving DecidableEq

/-- A user-defined-function record, as in
`UserDefinedFunction(name=..., arguments=..., return_type=..., language_config=..., body=...)`. -/
structure UserDefinedFunction where
  name : String
  arguments : List Argument
  return_type : ReturnDataType
  language_config : PythonFunction
  body : String
deriving DecidableEq

/-- The UDF declared at lines 28-49 of `steps/03_harmonize_data.py`:
`map_city_to_airport = UserDefinedFunction(name="get_city_for_airport", ...)`. -/
def map_city_to_airport : UserDefinedFunction :=
  { name := "get_city_for_airport"
    arguments := [{ name := "iata", datatype := "VARCHAR" }]
    return_type := { datatype := "VARCHAR" }
    language_config :=
      { runtime_version := "3.11"
        packages := ["snowflake-snowpark-python"]
        handler := "main" }
    body := "
from snowflake.snowpark.files import SnowflakeFile
from _snowflake import vectorized
\x69mport pandas
\x69mport json

@vectorized(input=pandas.DataFrame)
def main(df):
    airport_list = json.loads(
        SnowflakeFile.open(\"@bronze.raw/airport_list.json\", \x27r\x27, require_scoped_url = False).read()
    )
    airports = \x7bairport[3]: airport[1] for airport in airport_list\x7d
    return df[0].apply(lambda iata: airports.get(iata.upper()))
" }

/-!
Semantic model of the UDF body.  Each element of `airport_list.json` is a JSON
array; the body uses element 3 (the IATA code) as dictionary key and element 1
(the city name) as dictionary value, and ignores the other elements.  An entry
is modelled by the two fields the body reads.
-/

/-- One entry of `@bronze.raw/airport_list.json`: `city` is element 1 and
`iata` element 3 of the JSON array; the remaining elements are unused by the
UDF body and omitted from the model. -/
structure AirportEntry where
  city : String
  iata : String
deriving DecidableEq

/-- Python `str.upper()`, character-wise uppercasing; for the ASCII IATA codes
the code applies it to, this is exactly Python's behaviour. -/
def pyUpper (s : String) : String :=
  String.mk (s.data.map Char.toUpper)

/-- Inserting one binding `airport[3] ↦ airport[1]` into a dictionary modelled
as a lookup function: the new binding overwrites any earlier binding for the
same key, exactly as for a Python dict. -/
def dictInsert (m : String → Option String) (a : AirportEntry) :
    String → Option String :=
  fun k => if k = a.iata then some a.city else m k

/-- The Python dictionary comprehension
`airports = \x7bairport[3]: airport[1] for airport in airport_list\x7d`:
bindings inserted left to right starting from the empty dict. -/
def airportsDict (airport_list : List AirportEntry) : String → Option String :=
  airport_list.foldl dictInsert (fun _ => none)

/-- The per-element behaviour of the UDF on a non-NULL input string:
`airports.get(iata.upper())` — `dict.get` returns the stored value, or `None`
(here `none`) when the key is absent. -/
def get_city_for_airport (airport_list : List AirportEntry) (iata : String) :
    Option String :=
  airportsDict airport_list (pyUpper iata)

/-- The last entry of the list whose IATA field is `k`, if any: the binding a
Python dict built left to right holds for key `k`. -/
def lastMatch (k : String) : List AirportEntry → Option AirportEntry
  | [] => none
  | a :: l =>
    match lastMatch k l with
    | some b => some b
    | none => if a.iata = k then some a else none

/-- The per-element behaviour of the vectorized handler `main` on one cell of
the input column, NULL included.  A NULL cell is a Python `None`, on which
`iata.upper()` raises an `AttributeError` (`.error`); a non-NULL cell takes the
`get_city_for_airport` lookup path. -/
def mainOnCell (airport_list : List AirportEntry) :
    Option String → Except String (Option String)
  | none => .error "AttributeError"
  | some iata => .ok (get_city_for_airport airport_list iata)

/-!
The seven views of the `pipeline` list (lines 58-235 of the script), with the
column lists and query texts transliterated verbatim.
-/

/-- Per-seat carbon emissions view (first element of `pipeline`). -/
def flight_emissions : View :=
  { name := "flight_emissions"
    columns :=
      [{ name := "departure_airport" },
       { name := "arrival_airport" },
       { name := "co2_emissions_kg_per_person" }]
    query := "
        select
            departure_airport,
            arrival_airport,
            avg(estimated_co2_total_tonnes / seats) * 1000 as co2_emissions_kg_per_person
        from oag_flight_emissions_data_sample.public.estimated_emissions_schedules_sample
        where seats != 0 and estimated_co2_total_tonnes is not null
        group by departure_airport, arrival_airport
        " }

/-- Flight punctuality view (second element of `pipeline`). -/
def flight_punctuality : View :=
  { name := "flight_punctuality"
    columns :=
      [{ name := "departure_iata_airport_code" },
       { name := "arrival_iata_airport_code" },
       { name := "punctual_pct" }]
    query := "
        select
            departure_iata_airport_code,
            arrival_iata_airport_code,
            count(
                case when arrival_actual_ingate_timeliness IN (\x27OnTime\x27, \x27Early\x27) THEN 1 END
            ) / COUNT(*) * 100 as punctual_pct
        from oag_flight_status_data_sample.public.flight_status_latest_sample
        where arrival_actual_ingate_timeliness is not null
        group by departure_iata_airport_code, arrival_iata_airport_code
        " }

/-- Flights from the home airport (third element of `pipeline`). -/
def flights_from_home : View :=
  { name := "flights_from_home"
    columns :=
      [{ name := "departure_airport" },
       { name := "arrival_airport" },
       { name := "arrival_city" },
       { name := "co2_emissions_kg_per_person" },
       { name := "punctual_pct" }]
    query := "
        select
            departure_airport,
            arrival_airport,
            get_city_for_airport(arrival_airport) arrival_city,
            co2_emissions_kg_per_person,
            punctual_pct,
        from flight_emissions
        join flight_punctuality
            on departure_airport = departure_iata_airport_code
            and arrival_airport = arrival_iata_airport_code
        where departure_airport = (
            select $1:airport
            from @quickstart_common.public.quickstart_repo/branches/main/data/home.json
                (FILE_FORMAT => bronze.json_format))
        " }

/-- Weather forecast view (fourth element of `pipeline`). -/
def weather_forecast : View :=
  { name := "weather_forecast"
    columns :=
      [{ name := "postal_code" },
       { name := "avg_temperature_air_f" },
       { name := "avg_relative_humidity_pct" },
       { name := "avg_cloud_cover_pct" },
       { name := "precipitation_probability_pct" }]
    query := "
        select
            postal_code,
            avg(avg_temperature_air_2m_f) avg_temperature_air_f,
            avg(avg_humidity_relative_2m_pct) avg_relative_humidity_pct,
            avg(avg_cloud_cover_tot_pct) avg_cloud_cover_pct,
            avg(probability_of_precipitation_pct) precipitation_probability_pct
        from global_weather__climate_data_for_bi.standard_tile.forecast_day
        where country = \x27US\x27
        group by postal_code
        " }

/-- Major US cities view (fifth element of `pipeline`). -/
def major_us_cities : View :=
  { name := "major_us_cities"
    columns :=
      [{ name := "geo_id" },
       { name := "geo_name" },
       { name := "total_population" }]
    query := "
        select
            geo.geo_id,
            geo.geo_name,
            max(ts.value) total_population
        from global_government.cybersyn.datacommons_timeseries ts
        join global_government.cybersyn.geography_index geo
            on ts.geo_id = geo.geo_id
        join global_government.cybersyn.geography_relationships geo_rel
            on geo_rel.related_geo_id = geo.geo_id
        where true
            and ts.variable_name = \x27Total Population, census.gov\x27
            and date >= \x272020-01-01\x27
            and geo.level = \x27City\x27
            and geo_rel.geo_id = \x27country/USA\x27
            and value > 100000
        group by geo.geo_id, geo.geo_name
        order by total_population desc
        " }

/-- Zip codes per city view (sixth element of `pipeline`). -/
def zip_codes_in_city : View :=
  { name := "zip_codes_in_city"
    columns :=
      [{ name := "city_geo_id" },
       { name := "city_geo_name" },
       { name := "zip_geo_id" },
       { name := "zip_geo_name" }]
    query := "
        select
            city.geo_id city_geo_id,
            city.geo_name city_geo_name,
            city.related_geo_id zip_geo_id,
            city.related_geo_name zip_geo_name
        from us_addresses__poi.cybersyn.geography_relationships country
        join us_addresses__poi.cybersyn.geography_relationships city
            on country.related_geo_id = city.geo_id
        where true
            and country.geo_id = \x27country/USA\x27
            and city.level = \x27City\x27
            and city.related_level = \x27CensusZipCodeTabulationArea\x27
        order by city_geo_id
        " }

/-- Weather joined with major cities (seventh element of `pipeline`). -/
def weather_joined_with_major_cities : View :=
  { name := "weather_joined_with_major_cities"
    columns :=
      [{ name := "geo_id" },
       { name := "geo_name" },
       { name := "total_population" },
       { name := "avg_temperature_air_f" },
       { name := "avg_relative_humidity_pct" },
       { name := "avg_cloud_cover_pct" },
       { name := "precipitation_probability_pct" }]
    query := "
        select
            city.geo_id,
            city.geo_name,
            city.total_population,
            avg(avg_temperature_air_f) avg_temperature_air_f,
            avg(avg_relative_humidity_pct) avg_relative_humidity_pct,
            avg(avg_cloud_cover_pct) avg_cloud_cover_pct,
            avg(precipitation_probability_pct) precipitation_probability_pct
        from major_us_cities city
        join zip_codes_in_city zip on city.geo_id = zip.city_geo_id
        join weather_forecast weather on zip.zip_geo_name = weather.postal_code
        group by city.geo_id, city.geo_name, city.total_population
        " }

/-- The `pipeline` list of lines 58-235: the seven views the creation loop
iterates over (the comment `# Placeholder: Add new view definition here`
closes the list). -/
def pipeline : List View :=
  [flight_emissions,
   flight_punctuality,
   flights_from_home,
   weather_forecast,
   major_us_cities,
   zip_codes_in_city,
   weather_joined_with_major_cities]

/-- The `attractions` view constructed at lines 249-276, after the creation
loop; the constructed record is not bound to a name and not passed to any
create call. -/
def attractions : View :=
  { name := "attractions"
    columns :=
      [{ name := "geo_id" },
       { name := "geo_name" },
       { name := "aquarium_cnt" },
       { name := "zoo_cnt" },
       { name := "korean_restaurant_cnt" }]
    query := "
    select
        city.geo_id,
        city.geo_name,
        count(case when category_main = \x27Aquarium\x27 THEN 1 END) aquarium_cnt,
        count(case when category_main = \x27Zoo\x27 THEN 1 END) zoo_cnt,
        count(case when category_main = \x27Korean Restaurant\x27 THEN 1 END) korean_restaurant_cnt,
    from us_addresses__poi.cybersyn.point_of_interest_index poi
    join us_addresses__poi.cybersyn.point_of_interest_addresses_relationships poi_add
        on poi_add.poi_id = poi.poi_id
    join us_addresses__poi.cybersyn.us_addresses address
        on address.address_id = poi_add.address_id
    join major_us_cities city on city.geo_id = address.id_city
    where true
        and category_main in (\x27Aquarium\x27, \x27Zoo\x27, \x27Korean Restaurant\x27)
        and id_country = \x27country/USA\x27
    group by city.geo_id, city.geo_name
    " }

/-!
The script's effect on the warehouse (lines 238-247).  After building the API
root, the script selects
`root.databases[f"quickstart_\x7benvironment\x7d"].schemas["silver"]` — the
database name is derived from the environment variable `environment`, the
schema name is the fixed string `"silver"` — and then issues one
create-or-replace call for the UDF followed by one create-or-replace call per
view of `pipeline`, in list order.
-/

/-- An object a create call can target: the UDF or a view. -/
inductive SchemaObject where
  | udf (u : UserDefinedFunction)
  | view (v : View)
deriving DecidableEq

/-- The name of the object a create call carries. -/
def SchemaObject.objName : SchemaObject → String
  | .udf u => u.name
  | .view v => v.name

/-- One create call issued by the script: the database and schema it is
addressed to, the object, and the create mode. -/
structure CreateCall where
  database : String
  schemaName : String
  obj : SchemaObject
  mode : CreateMode
deriving DecidableEq

/-- The sequence of create calls a run of the script issues, given the value
`env` of the environment variable `environment`: first
`silver_schema.user_defined_functions.create(map_city_to_airport, mode=CreateMode.or_replace)`,
then `silver_schema.views.create(view, mode=CreateMode.or_replace)` for each
view of `pipeline` in order, all against database `"quickstart_" ++ env` and
schema `"silver"`. -/
def scriptCalls (env : String) : List CreateCall :=
  { database := "quickstart_" ++ env, schemaName := "silver"
    obj := .udf map_city_to_airport, mode := .orReplace } ::
  pipeline.map (fun v =>
    { database := "quickstart_" ++ env, schemaName := "silver"
      obj := .view v, mode := .orReplace })

/-- The state of the target schema: which UDF is stored under each name and
which view is stored under each name. -/
@[ext]
structure SchemaState where
  udfs : String → Option UserDefinedFunction
  views : String → Option View

/-- The schema state with no objects. -/
def emptyState : SchemaState :=
  { udfs := fun _ => none, views := fun _ => none }

/-- The effect of one create-or-replace call on the schema state: the object is
stored under its name, replacing whatever was stored there; every other name is
untouched. -/
def applyCall (s : SchemaState) (c : CreateCall) : SchemaState :=
  match c.obj with
  | .udf u => { s with udfs := fun n => if n = u.name then some u else s.udfs n }
  | .view v => { s with views := fun n => if n = v.name then some v else s.views n }

/-- A full successful run of the script: the create calls applied in order. -/
def runScript (env : String) (s : SchemaState) : SchemaState :=
  (scriptCalls env).foldl applyCall s

/-- The names of the objects the script creates, in creation order. -/
def createdNamesInOrder (env : String) : List String :=
  (scriptCalls env).map (fun c => c.obj.objName)

/-- The views the script's run actually passes to a create call. -/
def createdViews (env : String) : List View :=
  (scriptCalls env).filterMap (fun c =>
    match c.obj with
    | .view v => some v
    | .udf _ => none)

/-- The user-defined functions the script's run actually passes to a create
call. -/
def createdUdfs (env : String) : List UserDefinedFunction :=
  (scriptCalls env).filterMap (fun c =>
    match c.obj with
    | .udf u => some u
    | .view _ => none)

/-!
Fallible runs.  The script installs no exception handler, so a platform error
raised by any step aborts the run at that step.  A run is modelled against a
failure oracle: `oracle i` is the error the platform raises at the i-th create
call (counting from 0), or `none` when that call succeeds.  `sessErr` is an
error raised while building the session and API root (line 239), and
`envVar` is the value of `os.environ["environment"]` (line 242), whose absence
raises a `KeyError`.  The result pairs the warehouse state reached — the calls
completed before the failure remain applied — with the propagated error, if
any.
-/

/-- Run the create calls in order against the failure oracle, aborting at the
first call whose oracle entry is an error; calls completed before it stay
applied. -/
def runCreates : (Nat → Option String) → List CreateCall → SchemaState →
    SchemaState × Option String
  | _, [], s => (s, none)
  | oracle, c :: rest, s =>
    match oracle 0 with
    | some e => (s, some e)
    | none => runCreates (fun k => oracle (k + 1)) rest (applyCall s c)

/-- A fallible run of the whole script: session construction, the environment
variable lookup, then the create calls. -/
def scriptRunE (sessErr : Option String) (envVar : Option String)
    (oracle : Nat → Option String) (s : SchemaState) : SchemaState × Option String :=
  match sessErr with
  | some e => (s, some e)
  | none =>
    match envVar with
    | none => (s, some "KeyError: environment")
    | some env => runCreates oracle (scriptCalls env) s

/-- The first of the first `n` oracle entries that is an error, with its
index, if any. -/
def firstFail (oracle : Nat → Option String) : Nat → Option (Nat × String)
  | 0 => none
  | n + 1 =>
    match oracle 0 with
    | some e => some (0, e)
    | none => (firstFail (fun k => oracle (k + 1)) n).map (fun p => (p.1 + 1, p.2))

/-!
Identifier occurrence in query texts.  To decide which created objects a view's
query refers to, the query text is split into maximal runs of identifier
characters (letters, digits, underscore); a name is referenced when it occurs
as one of these tokens.  Token-level matching is what distinguishes a reference
to the view `flight_emissions` from the external table name
`oag_flight_emissions_data_sample`, which merely contains it as a substring.
-/

/-- Characters that may occur in a SQL identifier token. -/
def isIdentChar (c : Char) : Bool :=
  c.isAlphanum || c = '_'

/-- Accumulating tokenizer: `acc` holds the characters of the current token in
reverse. -/
def identTokensAux : List Char → List Char → List String
  | [], [] => []
  | [], acc => [String.mk acc.reverse]
  | c :: cs, acc =>
    if isIdentChar c then identTokensAux cs (c :: acc)
    else if acc.isEmpty then identTokensAux cs []
    else String.mk acc.reverse :: identTokensAux cs []

/-- The maximal identifier tokens of a string, in order. -/
def identTokens (s : String) : List String :=
  identTokensAux s.data []

/-- Whether the view's query text references the name as an identifier token. -/
def referencesName (v : View) (n : String) : Bool :=
  (identTokens v.query).contains n

/-- Check that each view of the list only references already-created names:
`done` is the list of names created so far, `allNames` the names the whole run
creates.  Each view may reference a name of `allNames` only if it is in `done`
at the view's creation, and the view's own name is then appended to `done`. -/
def topoFrom (allNames : List String) : List String → List View → Bool
  | _, [] => true
  | done, v :: vs =>
    (allNames.all fun n => !(referencesName v n) || done.contains n) &&
    topoFrom allNames (done ++ [v.name]) vs

/-!
Relational semantics of the `flight_emissions` query, for the division-safety
claim.  A row of
`oag_flight_emissions_data_sample.public.estimated_emissions_schedules_sample`
is modelled by the four columns the query reads; `estimated_co2_total_tonnes`
is nullable (`Option`), and the division `estimated_co2_total_tonnes / seats`
follows SQL NULL propagation.
-/

/-- A source row of the emissions sample table, restricted to the columns the
`flight_emissions` query reads. -/
structure EmissionRow where
  departure_airport : String
  arrival_airport : String
  estimated_co2_total_tonnes : Option ℚ
  seats : Int
deriving DecidableEq

/-- The WHERE predicate of the `flight_emissions` query:
`seats != 0 and estimated_co2_total_tonnes is not null`. -/
def emissionsWhere (r : EmissionRow) : Bool :=
  r.seats != 0 && r.estimated_co2_total_tonnes.isSome

/-- SQL division with NULL propagation: `NULL / seats` is NULL. -/
def sqlDivBySeats (co2 : Option ℚ) (seats : Int) : Option ℚ :=
  co2.map (fun c => c / (seats : ℚ))

/-- The list of (numerator, denominator) pairs the query's division
`estimated_co2_total_tonnes / seats` is evaluated on, for a given input table:
exactly the rows passing the WHERE clause. -/
def emissionsDivInputs (table : List EmissionRow) : List (Option ℚ × Int) :=
  (table.filter emissionsWhere).map
    (fun r => (r.estimated_co2_total_tonnes, r.seats))

/-- Evaluation of the `flight_emissions` view on an input table: filter by the
WHERE clause, group by (departure, arrival), and for each group average the
per-seat emissions and scale by 1000. -/
def flightEmissionsEval (table : List EmissionRow) :
    List (String × String × ℚ) :=
  let rows := table.filter emissionsWhere
  let keys := (rows.map (fun r => (r.departure_airport, r.arrival_airport))).dedup
  keys.map (fun k =>
    let grp := rows.filter
      (fun r => r.departure_airport = k.1 && r.arrival_airport = k.2)
    let vals := grp.filterMap
      (fun r => sqlDivBySeats r.estimated_co2_total_tonnes r.seats)
    (k.1, k.2, (vals.sum / (vals.length : ℚ)) * 1000))

/-!
Theorems.  First, lemmas relating the left-to-right dictionary build of the UDF
body to the last matching entry of the airport list.
-/

/-- Looking up `k` in the dictionary built by folding `dictInsert` over the
airport list yields the city of the last entry whose IATA field is `k`, or the
initial dictionary's answer when no entry matches. -/
theorem foldl_dictInsert_eq_lastMatch (k : String) :
    ∀ (l : List AirportEntry) (m : String → Option String),
      (l.foldl dictInsert m) k =
        (match lastMatch k l with
         | some b => some b.city
         | none => m k) := by
  intro l
  induction l with
  | nil => intro m; rfl
  | cons a l ih =>
    intro m
    show (l.foldl dictInsert (dictInsert m a)) k = _
    rw [ih]
    cases hl : lastMatch k l with
    | some b => simp [lastMatch, hl]
    | none =>
      simp only [lastMatch, hl]
      by_cases hk : k = a.iata
      · subst hk; simp [dictInsert]
      · have ha : ¬ (a.iata = k) := fun he => hk he.symm
        simp [dictInsert, hk, ha]

/-- A last matching entry is an entry of the list and matches the key. -/
theorem lastMatch_mem (k : String) :
    ∀ (l : List AirportEntry) (b : AirportEntry),
      lastMatch k l = some b → b ∈ l ∧ b.iata = k := by
  intro l
  induction l with
  | nil => intro b h; simp [lastMatch] at h
  | cons a l ih =>
    intro b h
    simp only [lastMatch] at h
    cases hl : lastMatch k l with
    | some c =>
      rw [hl] at h
      obtain rfl : c = b := Option.some.inj h
      obtain ⟨hm, hk⟩ := ih c hl
      exact ⟨List.mem_cons_of_mem _ hm, hk⟩
    | none =>
      rw [hl] at h
      by_cases ha : a.iata = k
      · rw [if_pos ha] at h
        obtain rfl : a = b := Option.some.inj h
        exact ⟨List.mem_cons_self _ _, ha⟩
      · rw [if_neg ha] at h
        exact absurd h (by simp)

/-- A matching entry in the list forces `lastMatch` to find something. -/
theorem lastMatch_isSome (k : String) :
    ∀ (l : List AirportEntry) (e : AirportEntry),
      e ∈ l → e.iata = k → (lastMatch k l).isSome = true := by
  intro l
  induction l with
  | nil => intro e he _; cases he
  | cons a l ih =>
    intro e he hk
    simp only [lastMatch]
    cases hl : lastMatch k l with
    | some b => rfl
    | none =>
      rcases List.mem_cons.mp he with rfl | hm
      · rw [if_pos hk]; rfl
      · have hs := ih e hm hk
        rw [hl] at hs
        simp at hs

/-- When no entry matches the key, `lastMatch` finds nothing. -/
theorem lastMatch_eq_none (k : String) :
    ∀ (l : List AirportEntry), (∀ e ∈ l, e.iata ≠ k) → lastMatch k l = none := by
  intro l
  induction l with
  | nil => intro _; rfl
  | cons a l ih =>
    intro h
    simp only [lastMatch]
    rw [ih (fun e he => h e (List.mem_cons_of_mem _ he))]
    rw [if_neg (h a (List.mem_cons_self _ _))]

/-- C3: the UDF body is a pure lookup.  For every airport list and every input
code, if `e` is the (unique) entry of the airport list whose IATA field
(element 3 of the JSON array) equals the uppercased input code, then
`get_city_for_airport` returns exactly the city field (element 1) of `e`: the
body builds the dictionary `airport[3] ↦ airport[1]` and looks the uppercased
code up, and does nothing else. -/
theorem get_city_for_airport_is_lookup
    (airport_list : List AirportEntry) (code : String) (e : AirportEntry)
    (hmem : e ∈ airport_list) (hiata : e.iata = pyUpper code)
    (huniq : ∀ e' ∈ airport_list, e'.iata = pyUpper code → e' = e) :
    get_city_for_airport airport_list code = some e.city := by
  unfold get_city_for_airport airportsDict
  rw [foldl_dictInsert_eq_lastMatch]
  have hs := lastMatch_isSome (pyUpper code) airport_list e hmem hiata
  cases hl : lastMatch (pyUpper code) airport_list with
  | none => rw [hl] at hs; simp at hs
  | some b =>
    obtain ⟨hbm, hbk⟩ := lastMatch_mem _ _ _ hl
    obtain rfl : b = e := huniq b hbm hbk
    rfl

/-- Witness for C3 on a concrete airport list and code. -/
theorem get_city_for_airport_is_lookup_witness :
    (⟨"San Francisco", "SFO"⟩ : AirportEntry) ∈
        [(⟨"San Francisco", "SFO"⟩ : AirportEntry), ⟨"New York", "JFK"⟩] ∧
    get_city_for_airport
        [(⟨"San Francisco", "SFO"⟩ : AirportEntry), ⟨"New York", "JFK"⟩] "sfo" =
      some "San Francisco" :=
  ⟨by decide,
   get_city_for_airport_is_lookup
     [(⟨"San Francisco", "SFO"⟩ : AirportEntry), ⟨"New York", "JFK"⟩] "sfo"
     ⟨"San Francisco", "SFO"⟩ (by decide) (by decide) (by decide)⟩

/-- C8: edge cases of the UDF at its public interface.  For a non-NULL input
whose uppercased form matches no entry of the airport list, the handler
returns NULL (`dict.get` returns Python `None`); for a NULL input cell the
body raises (`iata.upper()` is applied unconditionally, and `None` has no
`upper` method). -/
theorem get_city_for_airport_null_edge_cases
    (airport_list : List AirportEntry) (s : String)
    (hnone : ∀ e ∈ airport_list, e.iata ≠ pyUpper s) :
    mainOnCell airport_list (some s) = .ok none ∧
    mainOnCell airport_list none = .error "AttributeError" := by
  constructor
  · show Except.ok (get_city_for_airport airport_list s) = _
    unfold get_city_for_airport airportsDict
    rw [foldl_dictInsert_eq_lastMatch, lastMatch_eq_none _ _ hnone]
  · rfl

/-- Witness for C8 on a concrete airport list and inputs. -/
theorem get_city_for_airport_null_edge_cases_witness :
    (∀ e ∈ [(⟨"San Francisco", "SFO"⟩ : AirportEntry)], e.iata ≠ pyUpper "zz") ∧
    mainOnCell [(⟨"San Francisco", "SFO"⟩ : AirportEntry)] (some "zz") = .ok none ∧
    mainOnCell [(⟨"San Francisco", "SFO"⟩ : AirportEntry)] none =
      .error "AttributeError" :=
  ⟨by decide,
   (get_city_for_airport_null_edge_cases
      [(⟨"San Francisco", "SFO"⟩ : AirportEntry)] "zz" (by decide)).1,
   (get_city_for_airport_null_edge_cases
      [(⟨"San Francisco", "SFO"⟩ : AirportEntry)] "zz" (by decide)).2⟩

/-- C1: the target of every create call the script issues is determined by the
environment variable `environment`: for every value `env` of the variable,
every create call is addressed to the database `"quickstart_" ++ env` — the
database name is what the variable selects — and to the schema whose name is
the fixed string `"silver"`. -/
theorem create_calls_target_selected_by_environment
    (env : String) (c : CreateCall) (hc : c ∈ scriptCalls env) :
    c.database = "quickstart_" ++ env ∧ c.schemaName = "silver" := by
  simp only [scriptCalls, List.mem_cons, List.mem_map] at hc
  rcases hc with rfl | ⟨v, _, rfl⟩
  · exact ⟨rfl, rfl⟩
  · exact ⟨rfl, rfl⟩

/-- Witness for C1: the UDF create call of a run with `environment=prod`. -/
theorem create_calls_target_selected_by_environment_witness :
    ({ database := "quickstart_" ++ "prod", schemaName := "silver",
       obj := .udf map_city_to_airport, mode := .orReplace } : CreateCall) ∈
        scriptCalls "prod" ∧
    ({ database := "quickstart_" ++ "prod", schemaName := "silver",
       obj := .udf map_city_to_airport, mode := .orReplace } : CreateCall).database =
        "quickstart_" ++ "prod" :=
  ⟨by simp [scriptCalls],
   (create_calls_target_selected_by_environment "prod" _ (by simp [scriptCalls])).1⟩

/-- C4: the script declares exactly one user-defined function and passes
exactly that one to a create call; it is named `get_city_for_airport`, takes
the single argument `iata` of type VARCHAR, and returns VARCHAR. -/
theorem single_udf_signature (env : String) :
    createdUdfs env = [map_city_to_airport] ∧
    map_city_to_airport.name = "get_city_for_airport" ∧
    map_city_to_airport.arguments = [{ name := "iata", datatype := "VARCHAR" }] ∧
    map_city_to_airport.return_type = { datatype := "VARCHAR" } :=
  ⟨rfl, rfl, rfl, rfl⟩

/-- Counterexample to C2 as stated: no view the script actually creates
references the points-of-interest tables (`point_of_interest_index`,
`point_of_interest_addresses_relationships`); the only view referencing them
is `attractions`, and `attractions` is not among the objects any create call
of the run carries. -/
theorem poi_family_not_in_created_views :
    ((createdViews "dev").all (fun v =>
        !(referencesName v "point_of_interest_index") &&
        !(referencesName v "point_of_interest_addresses_relationships"))) = true ∧
    referencesName attractions "point_of_interest_index" = true ∧
    ((createdNamesInOrder "dev").contains "attractions") = false := by
  refine ⟨by decide, by decide, by decide⟩

/-- C2 amended: of the five third-party dataset families, four — flight
emissions, flight punctuality, weather forecasts, and demographic/geographic
reference data — are each referenced by at least one view the script creates;
the points-of-interest tables are referenced only by the `attractions` view,
which is constructed after the creation loop and never passed to a create
call, so that family is joined into no created view. -/
theorem dataset_families_in_created_views (env : String) :
    ((createdViews env).any (fun v =>
        referencesName v "oag_flight_emissions_data_sample")) = true ∧
    ((createdViews env).any (fun v =>
        referencesName v "oag_flight_status_data_sample")) = true ∧
    ((createdViews env).any (fun v =>
        referencesName v "global_weather__climate_data_for_bi")) = true ∧
    ((createdViews env).any (fun v =>
        referencesName v "global_government")) = true ∧
    ((createdViews env).all (fun v =>
        !(referencesName v "point_of_interest_index") &&
        !(referencesName v "point_of_interest_addresses_relationships"))) = true ∧
    referencesName attractions "point_of_interest_index" = true ∧
    ((createdNamesInOrder env).contains "attractions") = false := by
  have hv : createdViews env = pipeline := rfl
  have hn : createdNamesInOrder env =
      ["get_city_for_airport", "flight_emissions", "flight_punctuality",
       "flights_from_home", "weather_forecast", "major_us_cities",
       "zip_codes_in_city", "weather_joined_with_major_cities"] := rfl
  rw [hv, hn]
  refine ⟨by decide, by decide, by decide, by decide, by decide, by decide, by decide⟩

/-- C10: the creation order respects dependencies.  The function
`get_city_for_airport` is created first, the views follow in `pipeline` list
order, and this order is topological: scanning the query text of each view for
identifier tokens, every created name a view's query references belongs to an
object created strictly earlier in the same run (`flights_from_home` over
`flight_emissions`, `flight_punctuality` and `get_city_for_airport`;
`weather_joined_with_major_cities` over `major_us_cities`,
`zip_codes_in_city` and `weather_forecast`). -/
theorem creation_order_respects_dependencies (env : String) :
    createdNamesInOrder env =
      ["get_city_for_airport", "flight_emissions", "flight_punctuality",
       "flights_from_home", "weather_forecast", "major_us_cities",
       "zip_codes_in_city", "weather_joined_with_major_cities"] ∧
    topoFrom (createdNamesInOrder env) ["get_city_for_airport"] pipeline = true ∧
    referencesName flights_from_home "flight_emissions" = true ∧
    referencesName flights_from_home "flight_punctuality" = true ∧
    referencesName flights_from_home "get_city_for_airport" = true ∧
    referencesName weather_joined_with_major_cities "major_us_cities" = true ∧
    referencesName weather_joined_with_major_cities "zip_codes_in_city" = true ∧
    referencesName weather_joined_with_major_cities "weather_forecast" = true := by
  have hn : createdNamesInOrder env =
      ["get_city_for_airport", "flight_emissions", "flight_punctuality",
       "flights_from_home", "weather_forecast", "major_us_cities",
       "zip_codes_in_city", "weather_joined_with_major_cities"] := rfl
  rw [hn]
  refine ⟨rfl, by decide, by decide, by decide, by decide, by decide, by decide,
    by decide⟩

/-- C5: the script's only effect on warehouse state is the create-or-replace
of the one UDF and the seven pipeline views.  Every call of the run carries
mode or-replace, a run leaves every UDF name other than
`get_city_for_airport` unchanged, and it leaves every view name other than the
seven names of the `pipeline` list unchanged. -/
theorem script_frame_effect (env : String) (s : SchemaState) :
    ((scriptCalls env).all (fun c => c.mode == CreateMode.orReplace)) = true ∧
    (∀ n, n ≠ "get_city_for_airport" → (runScript env s).udfs n = s.udfs n) ∧
    (∀ n, n ∉ ["flight_emissions", "flight_punctuality", "flights_from_home",
        "weather_forecast", "major_us_cities", "zip_codes_in_city",
        "weather_joined_with_major_cities"] →
      (runScript env s).views n = s.views n) := by
  refine ⟨rfl, fun n hn => ?_, fun n hn => ?_⟩
  · simp [runScript, scriptCalls, applyCall, pipeline, map_city_to_airport,
      flight_emissions, flight_punctuality, flights_from_home, weather_forecast,
      major_us_cities, zip_codes_in_city, weather_joined_with_major_cities, hn]
  · simp only [List.mem_cons, List.not_mem_nil, or_false, not_or] at hn
    obtain ⟨h1, h2, h3, h4, h5, h6, h7⟩ := hn
    simp [runScript, scriptCalls, applyCall, pipeline, map_city_to_airport,
      flight_emissions, flight_punctuality, flights_from_home, weather_forecast,
      major_us_cities, zip_codes_in_city, weather_joined_with_major_cities,
      h1, h2, h3, h4, h5, h6, h7]

/-- Witness for C5: with `environment=prod`, from the empty schema state, a
view name outside the pipeline list is still absent after the run. -/
theorem script_frame_effect_witness :
    ("bronze_raw" ∉ ["flight_emissions", "flight_punctuality",
        "flights_from_home", "weather_forecast", "major_us_cities",
        "zip_codes_in_city", "weather_joined_with_major_cities"]) ∧
    (runScript "prod" emptyState).views "bronze_raw" =
      emptyState.views "bronze_raw" :=
  ⟨by decide,
   (script_frame_effect "prod" emptyState).2.2 "bronze_raw" (by decide)⟩

/-- C6: replaying the definitions is idempotent.  Because every create call
uses or-replace, running the script twice in succession from any schema state
yields exactly the same stored views and stored function as running it once. -/
theorem runScript_idempotent (env : String) (s : SchemaState) :
    runScript env (runScript env s) = runScript env s := by
  ext n
  · simp only [runScript, scriptCalls, applyCall, pipeline, map_city_to_airport,
      flight_emissions, flight_punctuality, flights_from_home, weather_forecast,
      major_us_cities, zip_codes_in_city, weather_joined_with_major_cities,
      List.map_cons, List.map_nil, List.foldl_cons, List.foldl_nil]
    split_ifs <;> rfl
  · simp only [runScript, scriptCalls, applyCall, pipeline, map_city_to_airport,
      flight_emissions, flight_punctuality, flights_from_home, weather_forecast,
      major_us_cities, zip_codes_in_city, weather_joined_with_major_cities,
      List.map_cons, List.map_nil, List.foldl_cons, List.foldl_nil]
    split_ifs <;> rfl

/-- Running the create calls against a failure oracle aborts at the first
failing call, propagating its error unchanged, with exactly the calls before
it applied; with no failing call, all calls are applied and no error is
reported. -/
theorem runCreates_eq_firstFail :
    ∀ (cs : List CreateCall) (oracle : Nat → Option String) (s : SchemaState),
      runCreates oracle cs s =
        (match firstFail oracle cs.length with
         | none => (cs.foldl applyCall s, none)
         | some p => ((cs.take p.1).foldl applyCall s, some p.2)) := by
  intro cs
  induction cs with
  | nil => intro oracle s; rfl
  | cons c cs ih =>
    intro oracle s
    simp only [runCreates]
    cases h : oracle 0 with
    | some e => simp only [List.length_cons, firstFail, h]; rfl
    | none =>
      rw [ih]
      simp only [List.length_cons, firstFail, h]
      cases hf : firstFail (fun k => oracle (k + 1)) cs.length with
      | none => rfl
      | some p => rfl

/-- The first `n` oracle entries contain no error exactly when each of them is
`none`. -/
theorem firstFail_eq_none_iff :
    ∀ (n : Nat) (oracle : Nat → Option String),
      firstFail oracle n = none ↔ ∀ i < n, oracle i = none := by
  intro n
  induction n with
  | zero => intro oracle; simp [firstFail]
  | succ n ih =>
    intro oracle
    simp only [firstFail]
    cases h : oracle 0 with
    | some e =>
      simp only []
      constructor
      · intro hc; exact absurd hc (by simp)
      · intro hall; exact absurd (hall 0 (Nat.succ_pos n)) (by simp [h])
    | none =>
      rw [Option.map_eq_none', ih (fun k => oracle (k + 1))]
      constructor
      · intro hall i hi
        cases i with
        | zero => exact h
        | succ j => exact hall j (Nat.lt_of_succ_lt_succ hi)
      · intro hall j hj
        exact hall (j + 1) (Nat.succ_lt_succ hj)

/-- C7: the script has no error handling of its own.  A run reports an error
exactly when session construction, the environment-variable lookup, or one of
the create calls raises; the first such error is propagated to the caller
unchanged; and the create calls completed before the failing one remain
applied, while the failing call and all later ones are not. -/
theorem script_propagates_platform_errors
    (sessErr envVar : Option String) (oracle : Nat → Option String)
    (s : SchemaState) :
    (scriptRunE sessErr envVar oracle s =
      (match sessErr with
       | some e => (s, some e)
       | none =>
         match envVar with
         | none => (s, some "KeyError: environment")
         | some env =>
           match firstFail oracle (scriptCalls env).length with
           | none => ((scriptCalls env).foldl applyCall s, none)
           | some p => (((scriptCalls env).take p.1).foldl applyCall s, some p.2))) ∧
    (∀ env : String,
      (scriptRunE none (some env) oracle s).2 = none ↔
        ∀ i < (scriptCalls env).length, oracle i = none) := by
  constructor
  · cases sessErr with
    | some e => rfl
    | none =>
      cases envVar with
      | none => rfl
      | some env => exact runCreates_eq_firstFail _ _ _
  · intro env
    show (runCreates oracle (scriptCalls env) s).2 = none ↔ _
    rw [runCreates_eq_firstFail]
    cases hf : firstFail oracle (scriptCalls env).length with
    | none =>
      exact ⟨fun _ => (firstFail_eq_none_iff _ oracle).mp hf, fun _ => rfl⟩
    | some p =>
      constructor
      · intro hc; exact absurd hc (by simp)
      · intro hall
        have hn := (firstFail_eq_none_iff _ oracle).mpr hall
        rw [hf] at hn
        exact absurd hn (by simp)

/-- Witness for C7: a session-construction failure is reported unchanged and
leaves the schema state untouched. -/
theorem script_propagates_platform_errors_witness :
    scriptRunE (some "boom") none (fun _ => none) emptyState =
      (emptyState, some "boom") :=
  (script_propagates_platform_errors (some "boom") none (fun _ => none)
    emptyState).1

/-- C9: in the `flight_emissions` view, the division
`estimated_co2_total_tonnes / seats` is evaluated only on rows passing the
WHERE clause `seats != 0 and estimated_co2_total_tonnes is not null`, so every
division the view performs has a non-zero divisor and a non-NULL numerator,
and every per-seat value aggregated by the average is non-NULL. -/
theorem flight_emissions_division_safe
    (table : List EmissionRow) (p : Option ℚ × Int)
    (hp : p ∈ emissionsDivInputs table) :
    p.2 ≠ 0 ∧ p.1 ≠ none ∧ sqlDivBySeats p.1 p.2 ≠ none := by
  simp only [emissionsDivInputs, List.mem_map, List.mem_filter] at hp
  obtain ⟨r, ⟨_, hw⟩, rfl⟩ := hp
  simp only [emissionsWhere, Bool.and_eq_true, bne_iff_ne, ne_eq,
    Option.isSome_iff_exists] at hw
  obtain ⟨hs, c, hc⟩ := hw
  refine ⟨hs, ?_, ?_⟩
  · simp [hc]
  · simp [sqlDivBySeats, hc]

/-- Witness for C9 on a concrete one-row table. -/
theorem flight_emissions_division_safe_witness :
    (100 : Int) ≠ 0 ∧ (some (2 : ℚ)) ≠ (none : Option ℚ) ∧
      sqlDivBySeats (some (2 : ℚ)) 100 ≠ none :=
  flight_emissions_division_safe
    [{ departure_airport := "SFO", arrival_airport := "JFK",
       estimated_co2_total_tonnes := some 2, seats := 100 }]
    (some 2, 100) (by decide)

end Harmonize
